import Mathlib

/-!
Verification of the view-coordination core of the multitasking-framework
prototypes.

The repository contains two families of prototypes:

* Variant `V1` (the first document of `src/prototype/app.js` and the first
  document of `src/unnamed/part_000`): scopes and states are plain strings,
  the selection store is a `Map<contextKey, Set<itemId>>`, and selection is
  mutated through `setSelection` and `toggleSelection`.

* Variant `V2` (the second documents of `src/prototype/app.js` and
  `src/unnamed/part_000`, backed by `src/prototype/model.js`): scopes are
  `{ type, id }` records referring to nodes of a domain `World`, states are
  strings, and the selection store is a `Map<contextKey, itemId>`.

All JavaScript `Map`s are modelled as association lists where `Map.set`
prepends a binding, so that `Map.get` (modelled as the first matching
binding) sees the most recent write, matching JavaScript semantics for the
operations the code uses.  JavaScript `Set`s of item ids are modelled as
duplicate-free insertion-ordered lists.  Callback invocation, which is the
only side effect of the broadcaster, is modelled by returning the list of
panels whose `onSelectionChange` callback runs, in iteration order.
-/

namespace Coordination

/-! ## Variant V1: the simple prototypes -/

namespace V1

/-- app.js line 56 and part_000 line 28: the context key of the simple
variant is the scope string, a hyphen, and the state string. -/
def getContextKey (scope state : String) : String :=
  scope ++ "-" ++ state

/-- A JavaScript `Set` of item ids: a duplicate-free list in insertion
order. -/
abbrev SelSet := List String

/-- JavaScript `Set.add`: appends the element if it is not present. -/
def selAdd (s : SelSet) (x : String) : SelSet :=
  if x ∈ s then s else s ++ [x]

/-- JavaScript `Set.delete`: removes the element if present. -/
def selDelete (s : SelSet) (x : String) : SelSet :=
  s.erase x

/-- JavaScript `Set.clear`. -/
def selClear (_ : SelSet) : SelSet := []

/-- JavaScript `Set.has`. -/
def selHas (s : SelSet) (x : String) : Bool :=
  s.contains x

/-- The selection store: `Map<contextKey, Set<itemId>>`
(`selectionByContext` in app.js line 37 and part_000 line 16). -/
abbrev SelStore := List (String × SelSet)

/-- JavaScript `Map.set`, modelled by prepending so the newest binding
wins on lookup. -/
def storeSet (st : SelStore) (k : String) (v : SelSet) : SelStore :=
  (k, v) :: st

/-- app.js lines 68-73 / part_000 lines 32-37: `getSelection` returns the
set stored for the context, lazily creating an empty set for an untouched
context.  The lazy insertion of an empty set is invisible at the level of
returned values, so the model returns the stored set or the empty set. -/
def getSelection (st : SelStore) (k : String) : SelSet :=
  (st.lookup k).getD []

/-- One open panel (app.js `panel` objects, part_000 `windowObj` objects).
`hasCallback` records whether `onSelectionChange` is non-null. -/
structure Panel where
  id : Nat
  scope : String
  state : String
  presentation : String
  contextKey : String
  hasCallback : Bool
deriving DecidableEq

/-- app.js lines 93-99 / part_000 lines 68-74: `broadcastSelectionChange`
walks the panel list and invokes `onSelectionChange` on every panel whose
`contextKey` matches and whose callback is non-null.  The model returns
the list of panels whose callback runs, in iteration order. -/
def broadcastSelectionChange (panels : List Panel) (k : String) : List Panel :=
  panels.filter (fun p => p.contextKey == k && p.hasCallback)

/-- app.js lines 75-82 / part_000 lines 39-46: `setSelection` clears the
selection set of the context, adds the item when it is not null, and
broadcasts.  Returns
the new store and the list of notified panels. -/
def setSelection (panels : List Panel) (st : SelStore) (k : String)
    (itemId : Option String) : SelStore × List Panel :=
  let sel := getSelection st k
  let sel := selClear sel
  let sel :=
    match itemId with
    | some x => selAdd sel x
    | none => sel
  (storeSet st k sel, broadcastSelectionChange panels k)

/-- part_000 lines 48-57: `toggleSelection` deletes the item when it is
already selected, otherwise clears the set (single selection mode) and
adds the item; then broadcasts. -/
def toggleSelection (panels : List Panel) (st : SelStore) (k : String)
    (x : String) : SelStore × List Panel :=
  let sel := getSelection st k
  let sel :=
    if selHas sel x then selDelete sel x
    else selAdd (selClear sel) x
  (storeSet st k sel, broadcastSelectionChange panels k)

/-- app.js lines 84-86 / part_000 lines 59-61: membership test. -/
def isSelected (st : SelStore) (k : String) (x : String) : Bool :=
  selHas (getSelection st k) x

/-- app.js lines 88-91 / part_000 lines 63-66: the first element of the
selection set, or null. -/
def getSelectedItem (st : SelStore) (k : String) : Option String :=
  (getSelection st k).head?

/-- What a content renderer does to the callback of the panel while
`createPanel` runs: whether it assigns `onSelectionChange`, and how many
times the assigned callback is invoked before `createPanel` returns. -/
structure ContentInit where
  setsCallback : Bool
  initialCallbackCalls : Nat
deriving DecidableEq

/-- app.js lines 207-213 dispatch on the presentation.
`createViewportContent` (lines 325-364) and `createListContent`
(lines 366-393) assign `panel.onSelectionChange` and never invoke it;
`createPropertiesContent` (lines 395-427) assigns `render` as the
callback and then calls `render()` once.  Unknown presentations leave the
callback null. -/
def contentInit (presentation : String) : ContentInit :=
  if presentation = "Viewport" then ⟨true, 0⟩
  else if presentation = "List" then ⟨true, 0⟩
  else if presentation = "Properties" then ⟨true, 1⟩
  else ⟨false, 0⟩

/-- The (scope, state, presentation) part of a `createPanel` config. -/
structure PanelConfig where
  scope : String
  state : String
  presentation : String
deriving DecidableEq

/-- Result of `createPanel`: the updated registry and id counter, the
created panel, and how often the callback of that panel ran before
`createPanel` returned. -/
structure CreateResult where
  panels : List Panel
  panelIdCounter : Nat
  panel : Panel
  initialCallbackCalls : Nat
deriving DecidableEq

/-- app.js lines 105-130: `createPanel` increments the id counter,
derives the context key, builds the panel with a null callback, pushes it
onto the registry, and renders it, which runs the content factory of the
presentation on the panel. -/
def createPanel (panels : List Panel) (panelIdCounter : Nat)
    (cfg : PanelConfig) : CreateResult :=
  let id := panelIdCounter + 1
  let contextKey := getContextKey cfg.scope cfg.state
  let ci := contentInit cfg.presentation
  let panel : Panel :=
    { id := id, scope := cfg.scope, state := cfg.state,
      presentation := cfg.presentation, contextKey := contextKey,
      hasCallback := ci.setsCallback }
  { panels := panels ++ [panel], panelIdCounter := id, panel := panel,
    initialCallbackCalls := ci.initialCallbackCalls }

end V1

/-! ## The domain model (src/prototype/model.js) -/

namespace Model

/-- model.js lines 246-248: a scope is a `{ type, id }` record. -/
structure Scope where
  type : String
  id : String
deriving DecidableEq

/-- model.js lines 246-248: `createScope`. -/
def createScope (type id : String) : Scope :=
  { type := type, id := id }

/-- model.js lines 250-252: `scopeKey` renders a scope as
`type:id`. -/
def scopeKey (scope : Scope) : String :=
  scope.type ++ ":" ++ scope.id

/-- model.js lines 91-98: an `Asset` (also used for script references). -/
structure Asset where
  id : String
  name : String
  type : String
  parentId : Option String
deriving DecidableEq

/-- model.js lines 44-59: an `Instance` is a scene object with children
instances. -/
inductive Instance where
  | mk (id name type : String) (position : Int × Int × Int)
      (children : List Instance) (parentId : Option String)

def Instance.id : Instance → String
  | .mk i _ _ _ _ _ => i

def Instance.name : Instance → String
  | .mk _ n _ _ _ _ => n

def Instance.type : Instance → String
  | .mk _ _ t _ _ _ => t

def Instance.children : Instance → List Instance
  | .mk _ _ _ _ c _ => c

/-- model.js lines 61-89: a `Place` owns root instances and references. -/
structure Place where
  id : String
  name : String
  instances : List Instance
  references : List Asset
  parentId : Option String

/-- model.js line 65: every `Place` carries the type string `place`. -/
def Place.type (_ : Place) : String := "place"

/-- model.js lines 82-84. -/
def Place.getInstances (p : Place) : List Instance := p.instances

/-- A member of the heterogeneous `assets` array of a `Game`, which holds both
`Asset` and `Place` objects (model.js lines 108-118). -/
inductive GAsset where
  | asset (a : Asset)
  | place (p : Place)

/-- model.js lines 100-127: a `Game`. -/
structure Game where
  id : String
  name : String
  accountId : String
  assets : List GAsset

/-- model.js lines 120-122. -/
def Game.getAssets (g : Game) : List GAsset := g.assets

/-- model.js lines 129-145: an `Inventory`. -/
structure Inventory where
  id : String
  accountId : String
  assets : List Asset

/-- model.js lines 142-144. -/
def Inventory.getAssets (i : Inventory) : List Asset := i.assets

/-- model.js lines 147-168: an `Account`. -/
structure Account where
  id : String
  name : String
  games : List Game
  inventory : Inventory

/-- model.js lines 161-163. -/
def Account.getGames (a : Account) : List Game := a.games

/-- A domain node, as returned by the untyped JavaScript lookups. -/
inductive Node where
  | account (a : Account)
  | game (g : Game)
  | inventory (i : Inventory)
  | place (p : Place)
  | asset (a : Asset)
  | inst (i : Instance)

/-- The dynamic type of an entry of `assetsById`, which
`registerAsset` fills with `Asset`s and `registerPlace` also fills with
`Place`s (model.js lines 195-201). -/
def GAsset.toNode : GAsset → Node
  | .asset a => .asset a
  | .place p => .place p

def GAsset.id : GAsset → String
  | .asset a => a.id
  | .place p => p.id

/-- model.js lines 174-240: the `World` holds the id indexes.  Each
JavaScript `Map` is an association list in registration order; all sample
ids are distinct, so lookup order is immaterial. -/
structure World where
  accounts : List (String × Account)
  gamesById : List (String × Game)
  assetsById : List (String × GAsset)
  placesById : List (String × Place)
  instancesById : List (String × Instance)
  inventoriesById : List (String × Inventory)

/-- model.js line 190. -/
def World.getAccount (w : World) (id : String) : Option Account :=
  w.accounts.lookup id

/-- model.js line 193. -/
def World.getGame (w : World) (id : String) : Option Game :=
  w.gamesById.lookup id

/-- model.js line 196. -/
def World.getAsset (w : World) (id : String) : Option GAsset :=
  w.assetsById.lookup id

/-- model.js line 202. -/
def World.getPlace (w : World) (id : String) : Option Place :=
  w.placesById.lookup id

/-- model.js line 205. -/
def World.getInstance (w : World) (id : String) : Option Instance :=
  w.instancesById.lookup id

/-- model.js line 207. -/
def World.getInventory (w : World) (id : String) : Option Inventory :=
  w.inventoriesById.lookup id

/-- model.js lines 209-219: dispatch on the scope type; unknown types
fall through to null. -/
def World.getNodeByScope (w : World) (scope : Scope) : Option Node :=
  match scope.type with
  | "account" => (w.getAccount scope.id).map .account
  | "game" => (w.getGame scope.id).map .game
  | "inventory" => (w.getInventory scope.id).map .inventory
  | "place" => (w.getPlace scope.id).map .place
  | "asset" => (w.getAsset scope.id).map GAsset.toNode
  | "instance" => (w.getInstance scope.id).map .inst
  | _ => none

/-- model.js lines 221-234: children of a scope; a missing node or an
unknown scope type yields the empty array. -/
def World.getChildrenForScope (w : World) (scope : Scope) : List Node :=
  match w.getNodeByScope scope with
  | none => []
  | some node =>
    match scope.type, node with
    | "account", .account a => a.getGames.map .game
    | "game", .game g => g.getAssets.map GAsset.toNode
    | "inventory", .inventory i => i.getAssets.map .asset
    | "place", .place p => p.getInstances.map .inst
    | "asset", _ => []
    | "instance", .inst i => i.children.map .inst
    | _, _ => []

/-- The scope types handled by the lookup switch statements
(model.js lines 210-216). -/
def supportedKinds : List String :=
  ["account", "game", "inventory", "place", "asset", "instance"]

/-- The keys of the id index that `getNodeByScope` consults for a given
scope type; empty for unsupported types. -/
def World.indexKeys (w : World) (type : String) : List String :=
  match type with
  | "account" => w.accounts.map Prod.fst
  | "game" => w.gamesById.map Prod.fst
  | "inventory" => w.inventoriesById.map Prod.fst
  | "place" => w.placesById.map Prod.fst
  | "asset" => w.assetsById.map Prod.fst
  | "instance" => w.instancesById.map Prod.fst
  | _ => []

/-- model.js lines 293-315: the root instances of the Main Lobby place.
Children are written in their final state; `addChild` and `addInstance`
set the `parentId` back-references. -/
def lobbyInstances : List Instance :=
  [ .mk "lobby-workspace" "Workspace" "folder" (0, 0, 0)
      [ .mk "lobby-spawn" "SpawnLocation" "spawn" (0, 5, 0) [] (some "lobby-workspace"),
        .mk "lobby-baseplate" "Baseplate" "part" (0, 0, 0) [] (some "lobby-workspace"),
        .mk "lobby-portal" "StartPortal" "model" (20, 5, 0) [] (some "lobby-workspace") ]
      (some "obby-lobby"),
    .mk "lobby-light" "SunLight" "light" (50, 100, 50) [] (some "obby-lobby") ]

/-- model.js lines 313-315: the LobbyManager script referenced by the
lobby; `addReference` does not set a parent. -/
def lobbyScript : Asset :=
  { id := "obby-lobby-script", name := "LobbyManager", type := "script", parentId := none }

/-- model.js lines 288-315: the Main Lobby place of Obby Adventure. -/
def lobby : Place :=
  { id := "obby-lobby", name := "Main Lobby", instances := lobbyInstances,
    references := [lobbyScript], parentId := some "obby" }

/-- model.js lines 317-344: Level 1 of Obby Adventure. -/
def level1 : Place :=
  { id := "obby-level1", name := "Level 1",
    instances :=
      [ .mk "l1-workspace" "Workspace" "folder" (0, 0, 0)
          [ .mk "l1-plat1" "Platform1" "part" (0, 10, 0) [] (some "l1-workspace"),
            .mk "l1-plat2" "Platform2" "part" (15, 15, 0) [] (some "l1-workspace"),
            .mk "l1-plat3" "Platform3" "part" (30, 20, 5) [] (some "l1-workspace"),
            .mk "l1-checkpoint" "Checkpoint" "spawn" (30, 22, 5) [] (some "l1-workspace"),
            .mk "l1-finish" "FinishLine" "model" (50, 25, 10) [] (some "l1-workspace") ]
          (some "obby-level1") ],
    references := [], parentId := some "obby" }

/-- model.js lines 346-361: Level 2 of Obby Adventure, with the six jump
pads built by the loop at lines 355-361. -/
def level2 : Place :=
  { id := "obby-level2", name := "Level 2",
    instances :=
      [ .mk "l2-workspace" "Workspace" "folder" (0, 0, 0)
          [ .mk "l2-plat1" "JumpPad1" "part" (12, 13, 10) [] (some "l2-workspace"),
            .mk "l2-plat2" "JumpPad2" "part" (24, 16, 0) [] (some "l2-workspace"),
            .mk "l2-plat3" "JumpPad3" "part" (36, 19, 10) [] (some "l2-workspace"),
            .mk "l2-plat4" "JumpPad4" "part" (48, 22, 0) [] (some "l2-workspace"),
            .mk "l2-plat5" "JumpPad5" "part" (60, 25, 10) [] (some "l2-workspace"),
            .mk "l2-plat6" "JumpPad6" "part" (72, 28, 0) [] (some "l2-workspace") ]
          (some "obby-level2") ],
    references := [], parentId := some "obby" }

/-- model.js lines 283-370: the Obby Adventure game. -/
def obby : Game :=
  { id := "obby", name := "Obby Adventure", accountId := "jimjam",
    assets :=
      [ .place lobby, .place level1, .place level2,
        .asset { id := "obby-gm", name := "GameManager", type := "script", parentId := some "obby" },
        .asset { id := "obby-pc", name := "PlayerController", type := "script", parentId := some "obby" } ] }

/-- model.js lines 372-407: the FPS Battle game and its Arena place. -/
def arena : Place :=
  { id := "fps-arena", name := "Arena",
    instances :=
      [ .mk "arena-ws" "Workspace" "folder" (0, 0, 0)
          [ .mk "arena-ground" "Ground" "part" (0, 0, 0) [] (some "arena-ws"),
            .mk "arena-wall1" "NorthWall" "part" (0, 10, 50) [] (some "arena-ws"),
            .mk "arena-wall2" "SouthWall" "part" (0, 10, -50) [] (some "arena-ws"),
            .mk "arena-spawna" "TeamASpawn" "spawn" (-40, 5, 0) [] (some "arena-ws"),
            .mk "arena-spawnb" "TeamBSpawn" "spawn" (40, 5, 0) [] (some "arena-ws") ]
          (some "fps-arena") ],
    references := [], parentId := some "fpsgame" }

def fps : Game :=
  { id := "fpsgame", name := "FPS Battle", accountId := "jimjam",
    assets :=
      [ .place arena,
        .asset { id := "fps-weapons", name := "WeaponSystem", type := "script", parentId := some "fpsgame" } ] }

/-- model.js lines 409-438: the inventory assets of the jimjam account. -/
def invJimjam : Inventory :=
  { id := "inv-jimjam", accountId := "jimjam",
    assets :=
      [ { id := "pkg-ui", name := "UI Kit", type := "package", parentId := some "inv-jimjam" },
        { id := "pkg-physics", name := "Physics Utils", type := "package", parentId := some "inv-jimjam" },
        { id := "mesh-char", name := "Character Rig", type := "mesh", parentId := some "inv-jimjam" },
        { id := "mesh-tree", name := "Tree Model", type := "mesh", parentId := some "inv-jimjam" },
        { id := "img-logo", name := "Logo", type := "image", parentId := some "inv-jimjam" },
        { id := "img-skybox", name := "Skybox", type := "image", parentId := some "inv-jimjam" },
        { id := "audio-bg", name := "Background Music", type := "audio", parentId := some "inv-jimjam" } ] }

/-- model.js lines 278-285: the jimjam account with its two games. -/
def jimjam : Account :=
  { id := "jimjam", name := "jimjam", games := [obby, fps], inventory := invJimjam }

/-- model.js lines 440-463: the studiodev account, its test game and its
inventory. -/
def testPlace : Place :=
  { id := "test-place", name := "Test Place",
    instances :=
      [ .mk "test-ws" "Workspace" "folder" (0, 0, 0)
          [ .mk "test-part" "TestPart" "part" (0, 5, 0) [] (some "test-ws") ]
          (some "test-place") ],
    references := [], parentId := some "testgame" }

def testGame : Game :=
  { id := "testgame", name := "Test Experience", accountId := "studiodev",
    assets := [.place testPlace] }

def invStudiodev : Inventory :=
  { id := "inv-studiodev", accountId := "studiodev",
    assets :=
      [ { id := "pkg-debug", name := "Debug Tools", type := "package", parentId := some "inv-studiodev" } ] }

def studiodev : Account :=
  { id := "studiodev", name := "studiodev", games := [testGame], inventory := invStudiodev }

/-- model.js lines 275-466: `createSampleWorld`, with every id index in
registration order.  `registerPlace` enters a place in `placesById` and
`assetsById` (model.js lines 198-201). -/
def createSampleWorld : World :=
  { accounts := [("jimjam", jimjam), ("studiodev", studiodev)],
    gamesById := [("obby", obby), ("fpsgame", fps), ("testgame", testGame)],
    assetsById :=
      [ ("obby-lobby", .place lobby),
        ("obby-lobby-script", .asset lobbyScript),
        ("obby-level1", .place level1),
        ("obby-level2", .place level2),
        ("obby-gm", .asset { id := "obby-gm", name := "GameManager", type := "script", parentId := some "obby" }),
        ("obby-pc", .asset { id := "obby-pc", name := "PlayerController", type := "script", parentId := some "obby" }),
        ("fps-arena", .place arena),
        ("fps-weapons", .asset { id := "fps-weapons", name := "WeaponSystem", type := "script", parentId := some "fpsgame" }),
        ("pkg-ui", .asset { id := "pkg-ui", name := "UI Kit", type := "package", parentId := some "inv-jimjam" }),
        ("pkg-physics", .asset { id := "pkg-physics", name := "Physics Utils", type := "package", parentId := some "inv-jimjam" }),
        ("mesh-char", .asset { id := "mesh-char", name := "Character Rig", type := "mesh", parentId := some "inv-jimjam" }),
        ("mesh-tree", .asset { id := "mesh-tree", name := "Tree Model", type := "mesh", parentId := some "inv-jimjam" }),
        ("img-logo", .asset { id := "img-logo", name := "Logo", type := "image", parentId := some "inv-jimjam" }),
        ("img-skybox", .asset { id := "img-skybox", name := "Skybox", type := "image", parentId := some "inv-jimjam" }),
        ("audio-bg", .asset { id := "audio-bg", name := "Background Music", type := "audio", parentId := some "inv-jimjam" }),
        ("test-place", .place testPlace),
        ("pkg-debug", .asset { id := "pkg-debug", name := "Debug Tools", type := "package", parentId := some "inv-studiodev" }) ],
    placesById :=
      [ ("obby-lobby", lobby), ("obby-level1", level1), ("obby-level2", level2),
        ("fps-arena", arena), ("test-place", testPlace) ],
    instancesById :=
      [ ("lobby-workspace", .mk "lobby-workspace" "Workspace" "folder" (0, 0, 0)
          [ .mk "lobby-spawn" "SpawnLocation" "spawn" (0, 5, 0) [] (some "lobby-workspace"),
            .mk "lobby-baseplate" "Baseplate" "part" (0, 0, 0) [] (some "lobby-workspace"),
            .mk "lobby-portal" "StartPortal" "model" (20, 5, 0) [] (some "lobby-workspace") ]
          (some "obby-lobby")),
        ("lobby-spawn", .mk "lobby-spawn" "SpawnLocation" "spawn" (0, 5, 0) [] (some "lobby-workspace")),
        ("lobby-baseplate", .mk "lobby-baseplate" "Baseplate" "part" (0, 0, 0) [] (some "lobby-workspace")),
        ("lobby-portal", .mk "lobby-portal" "StartPortal" "model" (20, 5, 0) [] (some "lobby-workspace")),
        ("lobby-light", .mk "lobby-light" "SunLight" "light" (50, 100, 50) [] (some "obby-lobby")),
        ("l1-workspace", .mk "l1-workspace" "Workspace" "folder" (0, 0, 0)
          [ .mk "l1-plat1" "Platform1" "part" (0, 10, 0) [] (some "l1-workspace"),
            .mk "l1-plat2" "Platform2" "part" (15, 15, 0) [] (some "l1-workspace"),
            .mk "l1-plat3" "Platform3" "part" (30, 20, 5) [] (some "l1-workspace"),
            .mk "l1-checkpoint" "Checkpoint" "spawn" (30, 22, 5) [] (some "l1-workspace"),
            .mk "l1-finish" "FinishLine" "model" (50, 25, 10) [] (some "l1-workspace") ]
          (some "obby-level1")),
        ("l1-plat1", .mk "l1-plat1" "Platform1" "part" (0, 10, 0) [] (some "l1-workspace")),
        ("l1-plat2", .mk "l1-plat2" "Platform2" "part" (15, 15, 0) [] (some "l1-workspace")),
        ("l1-plat3", .mk "l1-plat3" "Platform3" "part" (30, 20, 5) [] (some "l1-workspace")),
        ("l1-checkpoint", .mk "l1-checkpoint" "Checkpoint" "spawn" (30, 22, 5) [] (some "l1-workspace")),
        ("l1-finish", .mk "l1-finish" "FinishLine" "model" (50, 25, 10) [] (some "l1-workspace")),
        ("l2-workspace", .mk "l2-workspace" "Workspace" "folder" (0, 0, 0)
          [ .mk "l2-plat1" "JumpPad1" "part" (12, 13, 10) [] (some "l2-workspace"),
            .mk "l2-plat2" "JumpPad2" "part" (24, 16, 0) [] (some "l2-workspace"),
            .mk "l2-plat3" "JumpPad3" "part" (36, 19, 10) [] (some "l2-workspace"),
            .mk "l2-plat4" "JumpPad4" "part" (48, 22, 0) [] (some "l2-workspace"),
            .mk "l2-plat5" "JumpPad5" "part" (60, 25, 10) [] (some "l2-workspace"),
            .mk "l2-plat6" "JumpPad6" "part" (72, 28, 0) [] (some "l2-workspace") ]
          (some "obby-level2")),
        ("l2-plat1", .mk "l2-plat1" "JumpPad1" "part" (12, 13, 10) [] (some "l2-workspace")),
        ("l2-plat2", .mk "l2-plat2" "JumpPad2" "part" (24, 16, 0) [] (some "l2-workspace")),
        ("l2-plat3", .mk "l2-plat3" "JumpPad3" "part" (36, 19, 10) [] (some "l2-workspace")),
        ("l2-plat4", .mk "l2-plat4" "JumpPad4" "part" (48, 22, 0) [] (some "l2-workspace")),
        ("l2-plat5", .mk "l2-plat5" "JumpPad5" "part" (60, 25, 10) [] (some "l2-workspace")),
        ("l2-plat6", .mk "l2-plat6" "JumpPad6" "part" (72, 28, 0) [] (some "l2-workspace")),
        ("arena-ws", .mk "arena-ws" "Workspace" "folder" (0, 0, 0)
          [ .mk "arena-ground" "Ground" "part" (0, 0, 0) [] (some "arena-ws"),
            .mk "arena-wall1" "NorthWall" "part" (0, 10, 50) [] (some "arena-ws"),
            .mk "arena-wall2" "SouthWall" "part" (0, 10, -50) [] (some "arena-ws"),
            .mk "arena-spawna" "TeamASpawn" "spawn" (-40, 5, 0) [] (some "arena-ws"),
            .mk "arena-spawnb" "TeamBSpawn" "spawn" (40, 5, 0) [] (some "arena-ws") ]
          (some "fps-arena")),
        ("arena-ground", .mk "arena-ground" "Ground" "part" (0, 0, 0) [] (some "arena-ws")),
        ("arena-wall1", .mk "arena-wall1" "NorthWall" "part" (0, 10, 50) [] (some "arena-ws")),
        ("arena-wall2", .mk "arena-wall2" "SouthWall" "part" (0, 10, -50) [] (some "arena-ws")),
        ("arena-spawna", .mk "arena-spawna" "TeamASpawn" "spawn" (-40, 5, 0) [] (some "arena-ws")),
        ("arena-spawnb", .mk "arena-spawnb" "TeamBSpawn" "spawn" (40, 5, 0) [] (some "arena-ws")),
        ("test-ws", .mk "test-ws" "Workspace" "folder" (0, 0, 0)
          [ .mk "test-part" "TestPart" "part" (0, 5, 0) [] (some "test-ws") ]
          (some "test-place")),
        ("test-part", .mk "test-part" "TestPart" "part" (0, 5, 0) [] (some "test-ws")) ],
    inventoriesById := [("inv-jimjam", invJimjam), ("inv-studiodev", invStudiodev)] }

/-- All ids registered in any id index of the world. -/
def registeredIds (w : World) : List String :=
  w.accounts.map Prod.fst ++ w.gamesById.map Prod.fst ++
  w.assetsById.map Prod.fst ++ w.placesById.map Prod.fst ++
  w.instancesById.map Prod.fst ++ w.inventoriesById.map Prod.fst

end Model

/-! ## Variant V2: the model-based prototypes -/

namespace V2

/-- app.js lines 524-526 and part_000 lines 498-500: the context key of
the model-based variant is `scopeKey(scope)` followed by a vertical bar
and the state. -/
def getContextKey (scope : Model.Scope) (state : String) : String :=
  Model.scopeKey scope ++ "|" ++ state

/-- The selection store: `Map<contextKey, selectedItemId>` (part_000
line 484, app.js line 512); the stored value may be null. -/
abbrev SelStore := List (String × Option String)

/-- app.js lines 536-538 / part_000 lines 510-512: `getSelection` is
`selectionByContext.get(contextKey) || null`, so an absent key, a stored
null, and a stored empty string all come out as null. -/
def getSelection (st : SelStore) (k : String) : Option String :=
  match st.lookup k with
  | some (some x) => if x = "" then none else some x
  | _ => none

/-- One open panel of the model-based variant.  `hasCallback` records
whether `onSelectionChange` is non-null. -/
structure Panel where
  id : Nat
  scope : Model.Scope
  state : String
  presentation : String
  contextKey : String
  hasCallback : Bool
deriving DecidableEq

/-- app.js lines 545-551 / part_000 lines 519-525: notify every panel
whose `contextKey` matches and whose callback is non-null, in iteration
order. -/
def broadcastSelectionChange (panels : List Panel) (k : String) : List Panel :=
  panels.filter (fun p => p.contextKey == k && p.hasCallback)

/-- app.js lines 540-543 / part_000 lines 514-517: store the item id for
the context and broadcast.  Returns the new store and the notified
panels. -/
def setSelection (panels : List Panel) (st : SelStore) (k : String)
    (itemId : Option String) : SelStore × List Panel :=
  ((k, itemId) :: st, broadcastSelectionChange panels k)

/-- app.js lines 880-890 / part_000 lines 780-794: `updatePanelState`
finds the first panel with the given id, sets its state, recomputes its
context key from its unchanged scope, and re-renders it.  The re-render
runs the same content factory on the same scope and presentation, so
whether the callback is assigned is unchanged; scope, presentation and id
are untouched.  A missing id is a no-op. -/
def updatePanelState : List Panel → Nat → String → List Panel
  | [], _, _ => []
  | p :: rest, panelId, newState =>
    if p.id == panelId then
      { p with state := newState,
               contextKey := getContextKey p.scope newState } :: rest
    else
      p :: updatePanelState rest panelId newState

/-- The mutable view-layer state the registry operations touch: the panel
list and the selection store (part_000 lines 476-484). -/
structure AppState where
  panels : List Panel
  selectionByContext : SelStore
deriving DecidableEq

/-- app.js lines 872-878 / part_000 lines 768-778: `removePanel` splices
the first panel with the given id out of the registry (a missing id is a
no-op) and never touches `selectionByContext`. -/
def removeFirstById : List Panel → Nat → List Panel
  | [], _ => []
  | p :: rest, panelId =>
    if p.id == panelId then rest else p :: removeFirstById rest panelId

def removePanel (st : AppState) (panelId : Nat) : AppState :=
  { st with panels := removeFirstById st.panels panelId }

end V2

/-! ## Helper lemmas -/

/-- Lookup misses when the key is absent from the key column. -/
theorem lookup_eq_none_of_not_mem_keys {β : Type} {l : List (String × β)}
    {k : String} (h : k ∉ l.map Prod.fst) : l.lookup k = none := by
  induction l with
  | nil => rfl
  | cons e rest ih =>
    obtain ⟨ek, ev⟩ := e
    simp only [List.map, List.mem_cons, not_or] at h
    have hne : (k == ek) = false := by
      exact beq_false_of_ne h.1
    simp [List.lookup, hne, ih h.2]

/-- Splitting at a separator character that occurs in neither prefix is
injective. -/
theorem append_sep_inj {c : Char} :
    ∀ {l1 l2 r1 r2 : List Char}, c ∉ l1 → c ∉ l2 →
      l1 ++ c :: r1 = l2 ++ c :: r2 → l1 = l2 ∧ r1 = r2 := by
  intro l1
  induction l1 with
  | nil =>
    intro l2 r1 r2 _ h2 heq
    cases l2 with
    | nil => simpa using heq
    | cons b bs =>
      simp only [List.nil_append, List.cons_append, List.cons.injEq] at heq
      exact absurd (heq.1 ▸ List.mem_cons_self b bs) (by simp_all)
  | cons a as ih =>
    intro l2 r1 r2 h1 h2 heq
    cases l2 with
    | nil =>
      simp only [List.cons_append, List.nil_append, List.cons.injEq] at heq
      exact absurd (heq.1 ▸ List.mem_cons_self a as) (by simp_all)
    | cons b bs =>
      simp only [List.cons_append, List.cons.injEq] at heq
      have h1' : c ∉ as := fun hm => h1 (List.mem_cons_of_mem a hm)
      have h2' : c ∉ bs := fun hm => h2 (List.mem_cons_of_mem b hm)
      obtain ⟨hab, hrest⟩ := heq
      obtain ⟨hl, hr⟩ := ih h1' h2' hrest
      exact ⟨by rw [hab, hl], hr⟩

/-- String concatenation concatenates the character data. -/
theorem string_data_append (s t : String) : (s ++ t).data = s.data ++ t.data := by
  cases s
  cases t
  rfl

/-- Strings with equal character data are equal. -/
theorem string_eq_of_data_eq {s t : String} (h : s.data = t.data) : s = t := by
  cases s
  cases t
  exact congrArg String.mk h

/-- A list of length at most one containing an element is the singleton
of that element. -/
theorem eq_singleton_of_length_le_one {α : Type} {l : List α} {a : α}
    (hlen : l.length ≤ 1) (hmem : a ∈ l) : l = [a] := by
  cases l with
  | nil => cases hmem
  | cons x xs =>
    cases xs with
    | nil => simp_all
    | cons y ys => simp at hlen

/-- Membership in the V1 broadcast list, unfolded. -/
theorem V1.mem_broadcast_v1 {panels : List V1.Panel} {k : String} {p : V1.Panel} :
    p ∈ V1.broadcastSelectionChange panels k ↔
      p ∈ panels ∧ p.contextKey = k ∧ p.hasCallback = true := by
  simp [V1.broadcastSelectionChange, List.mem_filter, and_assoc]

/-- Membership in the V2 broadcast list, unfolded. -/
theorem V2.mem_broadcast_v2 {panels : List V2.Panel} {k : String} {p : V2.Panel} :
    p ∈ V2.broadcastSelectionChange panels k ↔
      p ∈ panels ∧ p.contextKey = k ∧ p.hasCallback = true := by
  simp [V2.broadcastSelectionChange, List.mem_filter, and_assoc]

/-! ## Claims -/

/-- C1.  Context isolation: `setSelection(k1, x)` never changes the value
`getSelection(k2)` returns for a different context key `k2`, and
`broadcastSelectionChange(k1)` only ever invokes callbacks of panels
whose `contextKey` is `k1` (variant V1, the code cited by the claim; the
same filter shape governs V2). -/
theorem claim_C1_context_isolation :
    (∀ (panels : List V1.Panel) (st : V1.SelStore) (k1 k2 : String)
        (x : Option String), k1 ≠ k2 →
      V1.getSelection (V1.setSelection panels st k1 x).1 k2 =
        V1.getSelection st k2) ∧
    (∀ (panels : List V1.Panel) (k1 : String) (p : V1.Panel),
      p ∈ V1.broadcastSelectionChange panels k1 → p.contextKey = k1) := by
  constructor
  · intro panels st k1 k2 x hne
    have hb : (k2 == k1) = false := beq_false_of_ne (Ne.symm hne)
    simp [V1.setSelection, V1.storeSet, V1.getSelection, List.lookup, hb]
  · intro panels k1 p hp
    exact (V1.mem_broadcast_v1.mp hp).2.1

/-- C1 witness at concrete inputs. -/
theorem claim_C1_context_isolation_witness :
    V1.getSelection
        (V1.setSelection [⟨1, "Game", "Edit", "Viewport", "Game-Edit", true⟩]
          [] "Game-Edit" (some "obj1")).1 "Asset-Browse" =
      V1.getSelection [] "Asset-Browse" ∧
    (⟨1, "Game", "Edit", "Viewport", "Game-Edit", true⟩ : V1.Panel).contextKey =
      "Game-Edit" :=
  ⟨claim_C1_context_isolation.1
      [⟨1, "Game", "Edit", "Viewport", "Game-Edit", true⟩] [] "Game-Edit"
      "Asset-Browse" (some "obj1") (by decide),
    claim_C1_context_isolation.2
      [⟨1, "Game", "Edit", "Viewport", "Game-Edit", true⟩] "Game-Edit"
      ⟨1, "Game", "Edit", "Viewport", "Game-Edit", true⟩ (by decide)⟩

/-- C2.  Selection sharing: one `setSelection(k, X)` call invokes the
callback of each registered panel of context `k` exactly once (counted in
the notified list, assuming panel ids are unique as the monotone counter
guarantees), and afterwards the selection set for `k` is exactly `{X}`,
so `getSelectedItem(k)` is `X` (variant V1, the code cited). -/
theorem claim_C2_selection_sharing (panels : List V1.Panel)
    (st : V1.SelStore) (k x : String) (P : V1.Panel)
    (hnd : (panels.map V1.Panel.id).Nodup) (hP : P ∈ panels)
    (hctx : P.contextKey = k) (hcb : P.hasCallback = true) :
    ((V1.setSelection panels st k (some x)).2.map V1.Panel.id).count P.id = 1 ∧
    V1.getSelection (V1.setSelection panels st k (some x)).1 k = [x] ∧
    V1.getSelectedItem (V1.setSelection panels st k (some x)).1 k = some x := by
  have hnotif : (V1.setSelection panels st k (some x)).2 =
      V1.broadcastSelectionChange panels k := rfl
  have hmem : P ∈ V1.broadcastSelectionChange panels k :=
    V1.mem_broadcast_v1.mpr ⟨hP, hctx, hcb⟩
  have hsub : List.Sublist ((V1.broadcastSelectionChange panels k).map V1.Panel.id)
      (panels.map V1.Panel.id) :=
    (List.filter_sublist panels).map V1.Panel.id
  have hnd' : ((V1.broadcastSelectionChange panels k).map V1.Panel.id).Nodup :=
    hnd.sublist hsub
  have hidmem : P.id ∈ (V1.broadcastSelectionChange panels k).map V1.Panel.id :=
    List.mem_map_of_mem V1.Panel.id hmem
  refine ⟨?_, ?_, ?_⟩
  · rw [hnotif]
    exact List.count_eq_one_of_mem hnd' hidmem
  · simp [V1.setSelection, V1.storeSet, V1.getSelection, V1.selClear,
      V1.selAdd, List.lookup]
  · simp [V1.getSelectedItem, V1.setSelection, V1.storeSet, V1.getSelection,
      V1.selClear, V1.selAdd, List.lookup]

/-- C2 witness: two panels sharing the context `Game-Edit`, notified once
each. -/
theorem claim_C2_selection_sharing_witness :
    (((V1.setSelection
          [⟨1, "Game", "Edit", "Viewport", "Game-Edit", true⟩,
           ⟨2, "Game", "Edit", "List", "Game-Edit", true⟩]
          [] "Game-Edit" (some "instance-7")).2.map V1.Panel.id).count 1 = 1) ∧
    V1.getSelection
        (V1.setSelection
          [⟨1, "Game", "Edit", "Viewport", "Game-Edit", true⟩,
           ⟨2, "Game", "Edit", "List", "Game-Edit", true⟩]
          [] "Game-Edit" (some "instance-7")).1 "Game-Edit" = ["instance-7"] ∧
    V1.getSelectedItem
        (V1.setSelection
          [⟨1, "Game", "Edit", "Viewport", "Game-Edit", true⟩,
           ⟨2, "Game", "Edit", "List", "Game-Edit", true⟩]
          [] "Game-Edit" (some "instance-7")).1 "Game-Edit" = some "instance-7" :=
  claim_C2_selection_sharing
    [⟨1, "Game", "Edit", "Viewport", "Game-Edit", true⟩,
     ⟨2, "Game", "Edit", "List", "Game-Edit", true⟩]
    [] "Game-Edit" "instance-7"
    ⟨1, "Game", "Edit", "Viewport", "Game-Edit", true⟩
    (by decide) (by decide) (by decide) (by decide)

/-- C10.  No change detection: `setSelection(k, x)` broadcasts
unconditionally, so every registered panel of context `k` with a callback
is notified again even when `x` is already the current selection for `k`
(both variants). -/
theorem claim_C10_no_change_detection :
    (∀ (panels : List V1.Panel) (st : V1.SelStore) (k x : String)
        (p : V1.Panel),
      V1.getSelection st k = [x] → p ∈ panels → p.contextKey = k →
      p.hasCallback = true → p ∈ (V1.setSelection panels st k (some x)).2) ∧
    (∀ (panels : List V2.Panel) (st : V2.SelStore) (k x : String)
        (p : V2.Panel),
      V2.getSelection st k = some x → p ∈ panels → p.contextKey = k →
      p.hasCallback = true → p ∈ (V2.setSelection panels st k (some x)).2) := by
  constructor
  · intro panels st k x p _ hp hctx hcb
    exact V1.mem_broadcast_v1.mpr ⟨hp, hctx, hcb⟩
  · intro panels st k x p _ hp hctx hcb
    exact V2.mem_broadcast_v2.mpr ⟨hp, hctx, hcb⟩

/-- C10 witness: a redundant `setSelection` still notifies the matching
panel in both variants. -/
theorem claim_C10_no_change_detection_witness :
    (⟨1, "Game", "Edit", "List", "Game-Edit", true⟩ : V1.Panel) ∈
      (V1.setSelection [⟨1, "Game", "Edit", "List", "Game-Edit", true⟩]
        [("Game-Edit", ["obj1"])] "Game-Edit" (some "obj1")).2 ∧
    (⟨1, ⟨"game", "obby"⟩, "Edit", "List", "game:obby|Edit", true⟩ : V2.Panel) ∈
      (V2.setSelection
        [⟨1, ⟨"game", "obby"⟩, "Edit", "List", "game:obby|Edit", true⟩]
        [("game:obby|Edit", some "obby-lobby")] "game:obby|Edit"
        (some "obby-lobby")).2 :=
  ⟨claim_C10_no_change_detection.1
      [⟨1, "Game", "Edit", "List", "Game-Edit", true⟩]
      [("Game-Edit", ["obj1"])] "Game-Edit" "obj1"
      ⟨1, "Game", "Edit", "List", "Game-Edit", true⟩
      (by decide) (by decide) (by decide) (by decide),
    claim_C10_no_change_detection.2
      [⟨1, ⟨"game", "obby"⟩, "Edit", "List", "game:obby|Edit", true⟩]
      [("game:obby|Edit", some "obby-lobby")] "game:obby|Edit" "obby-lobby"
      ⟨1, ⟨"game", "obby"⟩, "Edit", "List", "game:obby|Edit", true⟩
      (by decide) (by decide) (by decide) (by decide)⟩

/-- The selection store produced by `toggleSelection`, written out. -/
theorem V1.toggle_fst (panels : List V1.Panel) (st : V1.SelStore)
    (k x : String) :
    (V1.toggleSelection panels st k x).1 =
      V1.storeSet st k
        (if V1.selHas (V1.getSelection st k) x then
          V1.selDelete (V1.getSelection st k) x
        else V1.selAdd (V1.selClear (V1.getSelection st k)) x) := rfl

/-- Reading back the context just written. -/
theorem V1.getSelection_storeSet_self (st : V1.SelStore) (k : String)
    (v : V1.SelSet) : V1.getSelection (V1.storeSet st k v) k = v := by
  simp [V1.getSelection, V1.storeSet, List.lookup]

/-- C3 counterexample.  Starting from the reachable state in which `a` is
already selected for the context, `toggleSelection(ctx, a)` twice leaves
`a` selected, not the empty selection: the first toggle deselects `a` and
the second one selects it again. -/
theorem claim_C3_toggle_counterexample :
    V1.getSelection
        (V1.toggleSelection []
          (V1.toggleSelection [] [("Game-Edit", ["a"])] "Game-Edit" "a").1
          "Game-Edit" "a").1 "Game-Edit" ≠ [] := by decide

/-- C3 as amended.  Toggling `a` twice empties the selection provided `a`
was not already selected at the start; and toggling `a` then `b ≠ a`
leaves exactly `b` selected from every state holding at most one item
(every state reachable through `setSelection` and `toggleSelection`). -/
theorem claim_C3_toggle_amended :
    (∀ (panels : List V1.Panel) (st : V1.SelStore) (k a : String),
      a ∉ V1.getSelection st k →
      V1.getSelection
        (V1.toggleSelection panels
          (V1.toggleSelection panels st k a).1 k a).1 k = []) ∧
    (∀ (panels : List V1.Panel) (st : V1.SelStore) (k a b : String),
      (V1.getSelection st k).length ≤ 1 → a ≠ b →
      V1.getSelection
        (V1.toggleSelection panels
          (V1.toggleSelection panels st k a).1 k b).1 k = [b]) := by
  constructor
  · intro panels st k a ha
    have h1 : V1.selHas (V1.getSelection st k) a = false := by
      simp [V1.selHas, ha]
    have h2 : V1.selAdd (V1.selClear (V1.getSelection st k)) a = [a] := by
      simp [V1.selAdd, V1.selClear]
    rw [V1.toggle_fst, V1.toggle_fst, h1]
    simp only [Bool.false_eq_true, if_false, h2, V1.getSelection_storeSet_self]
    have h3 : V1.selHas [a] a = true := by simp [V1.selHas]
    rw [h3]
    simp [V1.selDelete, V1.getSelection_storeSet_self]
  · intro panels st k a b hlen hab
    by_cases hmem : a ∈ V1.getSelection st k
    · have hsel : V1.getSelection st k = [a] :=
        eq_singleton_of_length_le_one hlen hmem
      have h1 : V1.selHas (V1.getSelection st k) a = true := by
        simp [V1.selHas, hmem]
      rw [V1.toggle_fst, V1.toggle_fst, h1]
      simp only [if_true, hsel, V1.selDelete, List.erase_cons_head,
        V1.getSelection_storeSet_self]
      have h2 : V1.selHas ([] : V1.SelSet) b = false := by simp [V1.selHas]
      rw [h2]
      simp [V1.selAdd, V1.selClear, V1.getSelection_storeSet_self]
    · have h1 : V1.selHas (V1.getSelection st k) a = false := by
        simp [V1.selHas, hmem]
      have h2 : V1.selAdd (V1.selClear (V1.getSelection st k)) a = [a] := by
        simp [V1.selAdd, V1.selClear]
      rw [V1.toggle_fst, V1.toggle_fst, h1]
      simp only [Bool.false_eq_true, if_false, h2, V1.getSelection_storeSet_self]
      have h3 : V1.selHas [a] b = false := by
        simp [V1.selHas, Ne.symm hab]
      rw [h3]
      simp [V1.selAdd, V1.selClear, Ne.symm hab, V1.getSelection_storeSet_self]

/-- C3 amended witness at concrete inputs, starting from the empty
store. -/
theorem claim_C3_toggle_amended_witness :
    V1.getSelection
        (V1.toggleSelection []
          (V1.toggleSelection [] [] "Game-Edit" "a").1 "Game-Edit" "a").1
        "Game-Edit" = [] ∧
    V1.getSelection
        (V1.toggleSelection []
          (V1.toggleSelection [] [] "Game-Edit" "a").1 "Game-Edit" "b").1
        "Game-Edit" = ["b"] :=
  ⟨claim_C3_toggle_amended.1 [] [] "Game-Edit" "a" (by decide),
    claim_C3_toggle_amended.2 [] [] "Game-Edit" "a" "b" (by decide) (by decide)⟩

/-- Modelled from the spec: the canonical context-key format
`"{scope.kind}:{scope.id}|{state}"` claimed in section 3 of the spec,
written for comparison with the keys the code derives. -/
def specCanonicalKey (kind id state : String) : String :=
  kind ++ ":" ++ id ++ "|" ++ state

/-- C4 counterexample.  In the simple variant the derived key for the
concrete pair `("Game", "Edit")` is `"Game-Edit"`, which contains neither
the colon nor the vertical bar of the claimed canonical format (every
string of that format contains a vertical bar, see the last conjunct of
the amended theorem). -/
theorem claim_C4_key_format_counterexample :
    V1.getContextKey "Game" "Edit" = "Game-Edit" ∧
    "Game-Edit".data.contains ':' = false ∧
    "Game-Edit".data.contains '|' = false := by decide

/-- C4 as amended.  Key derivation is deterministic in every variant (it
is a pure function of its arguments in this embedding); the canonical
`"{kind}:{id}|{state}"` format holds exactly in the model-based variant,
while the simple variant derives `"{scope}-{state}"`.  Every canonical
key contains a vertical bar, so no simple-variant key of the
key of the shape seen in the counterexample matches the format. -/
theorem claim_C4_key_format_amended :
    (∀ scope state : String,
      V1.getContextKey scope state = scope ++ "-" ++ state) ∧
    (∀ (s : Model.Scope) (state : String),
      V2.getContextKey s state = specCanonicalKey s.type s.id state) ∧
    (∀ kind id state : String, '|' ∈ (specCanonicalKey kind id state).data) := by
  refine ⟨fun _ _ => rfl, fun _ _ => rfl, ?_⟩
  intro kind id state
  have hbar : '|' ∈ ("|" : String).data := by decide
  simp only [specCanonicalKey, string_data_append, List.mem_append]
  tauto

/-- The states offered by the state menu of the model-based variant
(part_000 line 880, app.js line 967). -/
def V2.states : List String :=
  ["Browse", "Edit", "Preview"]

/-- No supported scope kind contains a colon. -/
theorem supportedKinds_colon_free :
    ∀ t ∈ Model.supportedKinds, ':' ∉ t.data := by decide

/-- No id registered in the sample world contains a vertical bar. -/
theorem sample_ids_bar_free :
    ∀ i ∈ Model.registeredIds Model.createSampleWorld, '|' ∉ i.data := by decide

/-- The character data of a model-based context key, split at its
separators. -/
theorem V2.getContextKey_data (s : Model.Scope) (st : String) :
    (V2.getContextKey s st).data =
      s.type.data ++ ':' :: (s.id.data ++ '|' :: st.data) := by
  show (s.type ++ ":" ++ s.id ++ "|" ++ st).data = _
  rw [string_data_append, string_data_append, string_data_append,
    string_data_append]
  simp [List.append_assoc]

/-- C5.  Key injectivity on the supported domain: distinct
(scope, state) pairs with supported kinds, sample-world-registered ids
and menu states derive distinct context keys, because kinds are
colon-free and registered ids are bar-free. -/
theorem claim_C5_key_injectivity (s1 s2 : Model.Scope) (st1 st2 : String)
    (hk1 : s1.type ∈ Model.supportedKinds)
    (hk2 : s2.type ∈ Model.supportedKinds)
    (hi1 : s1.id ∈ Model.registeredIds Model.createSampleWorld)
    (hi2 : s2.id ∈ Model.registeredIds Model.createSampleWorld)
    (_hs1 : st1 ∈ V2.states) (_hs2 : st2 ∈ V2.states)
    (hne : (s1, st1) ≠ (s2, st2)) :
    V2.getContextKey s1 st1 ≠ V2.getContextKey s2 st2 := by
  intro heq
  have hdata := congrArg String.data heq
  rw [V2.getContextKey_data, V2.getContextKey_data] at hdata
  obtain ⟨hty, hrest⟩ :=
    append_sep_inj (supportedKinds_colon_free s1.type hk1)
      (supportedKinds_colon_free s2.type hk2) hdata
  obtain ⟨hid, hst⟩ :=
    append_sep_inj (sample_ids_bar_free s1.id hi1)
      (sample_ids_bar_free s2.id hi2) hrest
  have hs : s1 = s2 := by
    cases s1
    cases s2
    simp only [Model.Scope.mk.injEq]
    exact ⟨string_eq_of_data_eq hty, string_eq_of_data_eq hid⟩
  exact hne (by rw [hs, string_eq_of_data_eq hst])

/-- C5 witness: two concrete supported pairs with distinct keys. -/
theorem claim_C5_key_injectivity_witness :
    ((⟨"game", "obby"⟩ : Model.Scope), "Edit") ≠
      ((⟨"place", "obby-lobby"⟩ : Model.Scope), "Edit") ∧
    V2.getContextKey ⟨"game", "obby"⟩ "Edit" ≠
      V2.getContextKey ⟨"place", "obby-lobby"⟩ "Edit" :=
  ⟨by decide,
    claim_C5_key_injectivity ⟨"game", "obby"⟩ ⟨"place", "obby-lobby"⟩
      "Edit" "Edit" (by decide) (by decide) (by decide) (by decide)
      (by decide) (by decide) (by decide)⟩

/-- C6 counterexample.  Opening a List panel does not invoke its
`onSelectionChange` before `createPanel` returns: the callback is
assigned but runs zero times, not once. -/
theorem claim_C6_initial_callback_counterexample :
    (V1.createPanel [] 0 ⟨"Game", "Edit", "List"⟩).initialCallbackCalls ≠ 1 ∧
    (V1.createPanel [] 0 ⟨"Game", "Edit", "List"⟩).initialCallbackCalls = 0 ∧
    (V1.createPanel [] 0 ⟨"Game", "Edit", "List"⟩).panel.hasCallback = true := by
  decide

/-- C6 as amended.  `createPanel` allocates the next id, derives the
context key and registers the panel, but only the Properties presentation
invokes the callback of the panel (exactly once) before `createPanel`
returns; Viewport and List panels render their initial state without
calling it. -/
theorem claim_C6_initial_callback_amended (panels : List V1.Panel) (n : Nat)
    (cfg : V1.PanelConfig) :
    (V1.createPanel panels n cfg).initialCallbackCalls =
      (if cfg.presentation = "Properties" then 1 else 0) ∧
    ((V1.createPanel panels n cfg).panel.hasCallback = true ↔
      cfg.presentation ∈ (["Viewport", "List", "Properties"] : List String)) ∧
    (V1.createPanel panels n cfg).panels =
      panels ++ [(V1.createPanel panels n cfg).panel] ∧
    (V1.createPanel panels n cfg).panel.contextKey =
      V1.getContextKey cfg.scope cfg.state ∧
    (V1.createPanel panels n cfg).panel.id = n + 1 := by
  unfold V1.createPanel V1.contentInit
  by_cases h1 : cfg.presentation = "Viewport" <;>
    by_cases h2 : cfg.presentation = "List" <;>
    by_cases h3 : cfg.presentation = "Properties" <;>
    simp_all

/-- The updated panel `updatePanelState` builds from a panel it finds. -/
def V2.reassign (P : V2.Panel) (t2 : String) : V2.Panel :=
  { P with state := t2, contextKey := V2.getContextKey P.scope t2 }

/-- After `updatePanelState`, the panel found under the same id is the
reassigned one. -/
theorem V2.updatePanelState_find {panels : List V2.Panel} {pid : Nat}
    {P : V2.Panel} (t2 : String)
    (hfind : panels.find? (fun p => p.id == pid) = some P) :
    (V2.updatePanelState panels pid t2).find? (fun p => p.id == pid) =
      some (V2.reassign P t2) := by
  induction panels with
  | nil => simp at hfind
  | cons p rest ih =>
    cases hb : (p.id == pid) with
    | true =>
      rw [List.find?] at hfind
      rw [hb] at hfind
      cases hfind
      simp [V2.updatePanelState, hb, List.find?, V2.reassign]
    | false =>
      rw [List.find?] at hfind
      rw [hb] at hfind
      simp only [V2.updatePanelState, hb, Bool.false_eq_true, if_false]
      rw [List.find?]
      rw [hb]
      exact ih hfind

/-- Under unique ids, the only panel with the reassigned id left after
`updatePanelState` is the reassigned panel itself. -/
theorem V2.updatePanelState_mem_id {panels : List V2.Panel} {pid : Nat}
    {P : V2.Panel} (t2 : String)
    (hnd : (panels.map V2.Panel.id).Nodup)
    (hfind : panels.find? (fun p => p.id == pid) = some P) :
    ∀ q ∈ V2.updatePanelState panels pid t2, q.id = pid →
      q = V2.reassign P t2 := by
  induction panels with
  | nil => simp at hfind
  | cons p rest ih =>
    rw [List.map, List.nodup_cons] at hnd
    intro q hq hqid
    cases hb : (p.id == pid) with
    | true =>
      rw [List.find?] at hfind
      rw [hb] at hfind
      injection hfind with hPp
      subst hPp
      have hpid : p.id = pid := by simpa using hb
      simp only [V2.updatePanelState, hb, if_true] at hq
      rcases List.mem_cons.mp hq with hq | hq
      · exact hq
      · have hq' : q.id ∈ rest.map V2.Panel.id :=
          List.mem_map_of_mem V2.Panel.id hq
        rw [hqid, ← hpid] at hq'
        exact absurd hq' hnd.1
    | false =>
      rw [List.find?] at hfind
      rw [hb] at hfind
      simp only [V2.updatePanelState, hb, Bool.false_eq_true, if_false] at hq
      rcases List.mem_cons.mp hq with rfl | hq
      · exact absurd hqid (by simpa using hb)
      · exact ih hnd.2 hfind q hq hqid

/-- The reassigned panel is a member of the updated registry. -/
theorem V2.updatePanelState_reassign_mem {panels : List V2.Panel} {pid : Nat}
    {P : V2.Panel} (t2 : String)
    (hfind : panels.find? (fun p => p.id == pid) = some P) :
    V2.reassign P t2 ∈ V2.updatePanelState panels pid t2 := by
  induction panels with
  | nil => simp at hfind
  | cons p rest ih =>
    cases hb : (p.id == pid) with
    | true =>
      rw [List.find?] at hfind
      rw [hb] at hfind
      injection hfind with hPp
      subst hPp
      simp [V2.updatePanelState, hb, V2.reassign]
    | false =>
      rw [List.find?] at hfind
      rw [hb] at hfind
      simp only [V2.updatePanelState, hb, Bool.false_eq_true, if_false]
      exact List.mem_cons_of_mem p (ih hfind)

/-- C7.  Reassignment migrates the subscription: after
`updatePanelState(P.id, t2)` the panel keeps its scope and presentation
but carries the recomputed context key, a later `setSelection` on the old
context no longer notifies it, and a later `setSelection` on the new
context does. -/
theorem claim_C7_reassignment (panels : List V2.Panel) (pid : Nat)
    (P : V2.Panel) (t2 : String)
    (hnd : (panels.map V2.Panel.id).Nodup)
    (hfind : panels.find? (fun p => p.id == pid) = some P)
    (hkey : V2.getContextKey P.scope t2 ≠ P.contextKey)
    (hcb : P.hasCallback = true) :
    ((V2.updatePanelState panels pid t2).find? (fun p => p.id == pid) =
      some (V2.reassign P t2)) ∧
    (∀ (st : V2.SelStore) (x : Option String),
      pid ∉ ((V2.setSelection (V2.updatePanelState panels pid t2) st
        P.contextKey x).2.map V2.Panel.id)) ∧
    (∀ (st : V2.SelStore) (x : Option String),
      pid ∈ ((V2.setSelection (V2.updatePanelState panels pid t2) st
        (V2.getContextKey P.scope t2) x).2.map V2.Panel.id)) := by
  have hPid : P.id = pid := by
    simpa using List.find?_some hfind
  refine ⟨V2.updatePanelState_find t2 hfind, ?_, ?_⟩
  · intro st x hmem
    obtain ⟨q, hq, hqid⟩ := List.mem_map.mp hmem
    obtain ⟨hqmem, hqctx, _⟩ := V2.mem_broadcast_v2.mp hq
    have hqP : q = V2.reassign P t2 :=
      V2.updatePanelState_mem_id t2 hnd hfind q hqmem hqid
    rw [hqP] at hqctx
    exact hkey hqctx
  · intro st x
    have hmem : V2.reassign P t2 ∈
        V2.broadcastSelectionChange (V2.updatePanelState panels pid t2)
          (V2.getContextKey P.scope t2) :=
      V2.mem_broadcast_v2.mpr
        ⟨V2.updatePanelState_reassign_mem t2 hfind, rfl, hcb⟩
    have hm := List.mem_map_of_mem V2.Panel.id hmem
    have hPid2 : (V2.reassign P t2).id = pid := hPid
    rw [hPid2] at hm
    exact hm

/-- C7 witness: a single panel reassigned from Edit to Browse. -/
theorem claim_C7_reassignment_witness :
    ((V2.updatePanelState
        [⟨1, ⟨"game", "obby"⟩, "Edit", "List", "game:obby|Edit", true⟩]
        1 "Browse").find? (fun p => p.id == 1) =
      some ⟨1, ⟨"game", "obby"⟩, "Browse", "List", "game:obby|Browse", true⟩) ∧
    (1 ∉ ((V2.setSelection
        (V2.updatePanelState
          [⟨1, ⟨"game", "obby"⟩, "Edit", "List", "game:obby|Edit", true⟩]
          1 "Browse")
        [] "game:obby|Edit" (some "obby-lobby")).2.map V2.Panel.id)) ∧
    (1 ∈ ((V2.setSelection
        (V2.updatePanelState
          [⟨1, ⟨"game", "obby"⟩, "Edit", "List", "game:obby|Edit", true⟩]
          1 "Browse")
        [] "game:obby|Browse" (some "obby-lobby")).2.map V2.Panel.id)) := by
  have h := claim_C7_reassignment
    [⟨1, ⟨"game", "obby"⟩, "Edit", "List", "game:obby|Edit", true⟩] 1
    ⟨1, ⟨"game", "obby"⟩, "Edit", "List", "game:obby|Edit", true⟩ "Browse"
    (by decide) (by decide) (by decide) (by decide)
  exact ⟨h.1, h.2.1 [] (some "obby-lobby"), h.2.2 [] (some "obby-lobby")⟩

/-- Membership in the registry after `removeFirstById`, under unique
ids. -/
theorem V2.mem_removeFirstById {panels : List V2.Panel} {pid : Nat}
    (hnd : (panels.map V2.Panel.id).Nodup) (q : V2.Panel) :
    q ∈ V2.removeFirstById panels pid ↔ q ∈ panels ∧ q.id ≠ pid := by
  induction panels with
  | nil => simp [V2.removeFirstById]
  | cons p rest ih =>
    rw [List.map, List.nodup_cons] at hnd
    cases hb : (p.id == pid) with
    | true =>
      have hpid : p.id = pid := by simpa using hb
      simp only [V2.removeFirstById, hb, if_true]
      constructor
      · intro hq
        refine ⟨List.mem_cons_of_mem p hq, fun hqid => ?_⟩
        have hq' : q.id ∈ rest.map V2.Panel.id :=
          List.mem_map_of_mem V2.Panel.id hq
        rw [hqid, ← hpid] at hq'
        exact hnd.1 hq'
      · rintro ⟨hq, hqid⟩
        rcases List.mem_cons.mp hq with rfl | hq
        · exact absurd hpid hqid
        · exact hq
    | false =>
      have hpid : p.id ≠ pid := by simpa using hb
      simp only [V2.removeFirstById, hb, Bool.false_eq_true, if_false]
      constructor
      · intro hq
        rcases List.mem_cons.mp hq with rfl | hq
        · exact ⟨List.mem_cons_self _ _, hpid⟩
        · obtain ⟨hq', hqid⟩ := (ih hnd.2 ).mp hq
          exact ⟨List.mem_cons_of_mem p hq', hqid⟩
      · rintro ⟨hq, hqid⟩
        rcases List.mem_cons.mp hq with rfl | hq
        · exact List.mem_cons_self _ _
        · exact List.mem_cons_of_mem p ((ih hnd.2).mpr ⟨hq, hqid⟩)

/-- C8.  Closing a panel removes exactly that panel from the registry and
leaves the whole selection store, hence the selection value of every context,
unchanged. -/
theorem claim_C8_close_leaves_selection (st : V2.AppState) (pid : Nat)
    (hnd : (st.panels.map V2.Panel.id).Nodup) :
    (V2.removePanel st pid).selectionByContext = st.selectionByContext ∧
    (∀ k, V2.getSelection (V2.removePanel st pid).selectionByContext k =
      V2.getSelection st.selectionByContext k) ∧
    (∀ q : V2.Panel, q ∈ (V2.removePanel st pid).panels ↔
      q ∈ st.panels ∧ q.id ≠ pid) := by
  refine ⟨rfl, fun _ => rfl, fun q => ?_⟩
  exact V2.mem_removeFirstById hnd q

/-- C8 witness: closing panel 1 of two panels sharing a context keeps the
other panel and the stored selection `instance-7`. -/
theorem claim_C8_close_leaves_selection_witness :
    (V2.removePanel
        ⟨[⟨1, ⟨"game", "obby"⟩, "Edit", "List", "game:obby|Edit", true⟩,
          ⟨2, ⟨"game", "obby"⟩, "Edit", "Properties", "game:obby|Edit", true⟩],
          [("game:obby|Edit", some "instance-7")]⟩ 1).selectionByContext =
      [("game:obby|Edit", some "instance-7")] ∧
    V2.getSelection
        (V2.removePanel
          ⟨[⟨1, ⟨"game", "obby"⟩, "Edit", "List", "game:obby|Edit", true⟩,
            ⟨2, ⟨"game", "obby"⟩, "Edit", "Properties", "game:obby|Edit", true⟩],
            [("game:obby|Edit", some "instance-7")]⟩ 1).selectionByContext
        "game:obby|Edit" = some "instance-7" ∧
    ((⟨2, ⟨"game", "obby"⟩, "Edit", "Properties", "game:obby|Edit", true⟩ : V2.Panel) ∈
        (V2.removePanel
          ⟨[⟨1, ⟨"game", "obby"⟩, "Edit", "List", "game:obby|Edit", true⟩,
            ⟨2, ⟨"game", "obby"⟩, "Edit", "Properties", "game:obby|Edit", true⟩],
            [("game:obby|Edit", some "instance-7")]⟩ 1).panels ↔
      (⟨2, ⟨"game", "obby"⟩, "Edit", "Properties", "game:obby|Edit", true⟩ : V2.Panel) ∈
          [⟨1, ⟨"game", "obby"⟩, "Edit", "List", "game:obby|Edit", true⟩,
           ⟨2, ⟨"game", "obby"⟩, "Edit", "Properties", "game:obby|Edit", true⟩] ∧
        (⟨2, ⟨"game", "obby"⟩, "Edit", "Properties", "game:obby|Edit", true⟩ : V2.Panel).id ≠ 1) := by
  have h := claim_C8_close_leaves_selection
    ⟨[⟨1, ⟨"game", "obby"⟩, "Edit", "List", "game:obby|Edit", true⟩,
      ⟨2, ⟨"game", "obby"⟩, "Edit", "Properties", "game:obby|Edit", true⟩],
      [("game:obby|Edit", some "instance-7")]⟩ 1 (by decide)
  exact ⟨h.1, (h.2.1 "game:obby|Edit").trans (by decide),
    h.2.2 ⟨2, ⟨"game", "obby"⟩, "Edit", "Properties", "game:obby|Edit", true⟩⟩

/-- C9.  A lookup miss is an absent value, never an error: a scope whose
id is missing from the index its kind refers to, or whose kind is
unsupported, makes `getNodeByScope` return null and
`getChildrenForScope` return the empty array.  Both operations are total
Lean functions, so no input makes them fail. -/
theorem claim_C9_lookup_miss (w : Model.World) (s : Model.Scope)
    (h : s.id ∉ w.indexKeys s.type ∨ s.type ∉ Model.supportedKinds) :
    w.getNodeByScope s = none ∧ w.getChildrenForScope s = [] := by
  have hnode : w.getNodeByScope s = none := by
    have hmiss : ∀ kind, s.type = kind → kind ∈ Model.supportedKinds →
        s.id ∉ w.indexKeys kind := by
      intro kind hkind hsup
      cases h with
      | inl hid => exact hkind ▸ hid
      | inr hk => exact absurd (hkind ▸ hsup) hk
    rw [Model.World.getNodeByScope]
    split
    case _ heq =>
      have := hmiss "account" heq (by decide)
      rw [Model.World.indexKeys] at this
      rw [Model.World.getAccount, lookup_eq_none_of_not_mem_keys this]
      rfl
    case _ heq =>
      have := hmiss "game" heq (by decide)
      rw [Model.World.indexKeys] at this
      rw [Model.World.getGame, lookup_eq_none_of_not_mem_keys this]
      rfl
    case _ heq =>
      have := hmiss "inventory" heq (by decide)
      rw [Model.World.indexKeys] at this
      rw [Model.World.getInventory, lookup_eq_none_of_not_mem_keys this]
      rfl
    case _ heq =>
      have := hmiss "place" heq (by decide)
      rw [Model.World.indexKeys] at this
      rw [Model.World.getPlace, lookup_eq_none_of_not_mem_keys this]
      rfl
    case _ heq =>
      have := hmiss "asset" heq (by decide)
      rw [Model.World.indexKeys] at this
      rw [Model.World.getAsset, lookup_eq_none_of_not_mem_keys this]
      rfl
    case _ heq =>
      have := hmiss "instance" heq (by decide)
      rw [Model.World.indexKeys] at this
      rw [Model.World.getInstance, lookup_eq_none_of_not_mem_keys this]
      rfl
    case _ =>
      rfl
  refine ⟨hnode, ?_⟩
  rw [Model.World.getChildrenForScope, hnode]

/-- C9 witness: an unregistered game id and an unsupported kind on the
sample world. -/
theorem claim_C9_lookup_miss_witness :
    (Model.createSampleWorld.getNodeByScope ⟨"game", "missing"⟩ = none ∧
      Model.createSampleWorld.getChildrenForScope ⟨"game", "missing"⟩ = []) ∧
    (Model.createSampleWorld.getNodeByScope ⟨"universe", "obby"⟩ = none ∧
      Model.createSampleWorld.getChildrenForScope ⟨"universe", "obby"⟩ = []) :=
  ⟨claim_C9_lookup_miss Model.createSampleWorld ⟨"game", "missing"⟩
      (Or.inl (by decide)),
    claim_C9_lookup_miss Model.createSampleWorld ⟨"universe", "obby"⟩
      (Or.inr (by decide))⟩

end Coordination
